import Mathlib

/-!
Verification of the `fury.testing` utility module: a stream-capture scope,
a generic comparison assertion with named bindings, a sequence-of-arrays
equality check, and an environment normalization routine.

The Python code is shallowly embedded: Python values that the assertions
are used on (ints and booleans, where booleans compare as the integers
0/1) become an inductive `PyVal`; `str.format` with two positional
arguments becomes `pyFormat`; raising `AssertionError` becomes returning
`Except.error` carrying the message; the process-wide stream state mutated
by `captured_output` becomes an explicit `Sys` record threaded through the
enclosed code; numpy/scipy global configuration mutated by `setup_test`
becomes an explicit `GlobalConfig` record, with `LooseVersion` comparison
on numeric version components modelled by lexicographic order on
`List Nat`.
-/

namespace Fury

/-- Python values the assertion helpers are exercised on: integers and
booleans.  In Python, `bool` is a subtype of `int` (`True == 1`,
`False == 0`), which `toNum` reflects. -/
inductive PyVal where
  | int (n : Int)
  | bool (b : Bool)
deriving DecidableEq

/-- Numeric value of a Python int/bool (`True` is 1, `False` is 0). -/
def PyVal.toNum : PyVal → Int
  | .int n => n
  | .bool b => if b then 1 else 0

/-- Python `str()` of a value: ints print as decimal, booleans as
`True`/`False`. -/
def pyStr : PyVal → String
  | .int n => toString n
  | .bool true => "True"
  | .bool false => "False"

/-- Python `operator.eq` on ints/bools (numeric comparison). -/
def pyEq (a b : PyVal) : Bool := a.toNum == b.toNum

/-- Python `operator.ne`. -/
def pyNe (a b : PyVal) : Bool := !(pyEq a b)

/-- Python `operator.gt`. -/
def pyGt (a b : PyVal) : Bool := decide (a.toNum > b.toNum)

/-- Python `operator.ge`. -/
def pyGe (a b : PyVal) : Bool := decide (a.toNum ≥ b.toNum)

/-- Python `operator.lt`. -/
def pyLt (a b : PyVal) : Bool := decide (a.toNum < b.toNum)

/-- Python `operator.le`. -/
def pyLe (a b : PyVal) : Bool := decide (a.toNum ≤ b.toNum)

/-- Model of Python `template.format(a0, a1)` with two positional
arguments, scanning the template: `{0}` is replaced by `a0`, `{1}` by
`a1`, and a bare `\x7b\x7d` by the next auto-numbered argument (`auto`
counts how many bare slots were already consumed).  Field specifications
never used by this module (nested or longer ones, or unmatched braces,
on which Python raises `ValueError`) are outside the model's scope. -/
def pyFormat2 (a0 a1 : String) : Nat → List Char → String
  | _, [] => ""
  | auto, c :: rest =>
    if c = '\x7b' then
      match rest with
      | [] => ""
      | d :: rest1 =>
        if d = '\x7d' then
          (if auto = 0 then a0 else a1) ++ pyFormat2 a0 a1 (auto + 1) rest1
        else
          match rest1 with
          | [] => ""
          | e :: rest2 =>
            if e = '\x7d' then
              (if d = '0' then a0 else if d = '1' then a1 else "")
                ++ pyFormat2 a0 a1 auto rest2
            else
              String.singleton c ++ String.singleton d ++ String.singleton e
                ++ pyFormat2 a0 a1 auto rest2
    else String.singleton c ++ pyFormat2 a0 a1 auto rest

/-- Python `msg.format(a0, a1)`. -/
def pyFormat (msg a0 a1 : String) : String := pyFormat2 a0 a1 0 msg.data

/-- Source `assert_operator(value1, value2, msg, op)`: if `op(value1, value2)` is
false, raise `AssertionError(msg.format(str(value2), str(value1)))`;
otherwise return normally. -/
def assert_operator (value1 value2 : PyVal) (msg : String)
    (op : PyVal → PyVal → Bool) : Except String Unit :=
  if !(op value1 value2) then
    .error (pyFormat msg (pyStr value2) (pyStr value1))
  else .ok ()

/-- Binding `assert_greater_equal = partial(assert_operator, op=ge, msg="{0} >= {1}")`. -/
def assert_greater_equal (v1 v2 : PyVal) : Except String Unit :=
  assert_operator v1 v2 "{0} >= {1}" pyGe

/-- Binding `assert_greater = partial(assert_operator, op=gt, msg="{0} > {1}")`. -/
def assert_greater (v1 v2 : PyVal) : Except String Unit :=
  assert_operator v1 v2 "{0} > {1}" pyGt

/-- Binding `assert_less_equal = partial(assert_operator, op=le, msg="{0} =< {1}")`. -/
def assert_less_equal (v1 v2 : PyVal) : Except String Unit :=
  assert_operator v1 v2 "{0} =< {1}" pyLe

/-- Binding `assert_less = partial(assert_operator, op=lt, msg="{0} < {1}")`. -/
def assert_less (v1 v2 : PyVal) : Except String Unit :=
  assert_operator v1 v2 "{0} < {1}" pyLt

/-- Binding `assert_true = partial(assert_operator, value2=True, op=eq, msg="False is not true")`. -/
def assert_true (v1 : PyVal) : Except String Unit :=
  assert_operator v1 (.bool true) "False is not true" pyEq

/-- Binding `assert_false = partial(assert_operator, value2=False, op=eq, msg="True is not false")`. -/
def assert_false (v1 : PyVal) : Except String Unit :=
  assert_operator v1 (.bool false) "True is not false" pyEq

/-- Binding `assert_not_equal = partial(assert_operator, op=ne)`; the message
template stays at `assert_operator`'s default, the empty string. -/
def assert_not_equal (v1 v2 : PyVal) : Except String Unit :=
  assert_operator v1 v2 "" pyNe

/-- Model of numpy's `assert_array_equal` on one-dimensional integer
arrays: raises (returns an error) exactly when the two arrays differ in
shape or in some element, i.e. when the lists are unequal. -/
def assert_array_equal (a b : List Int) : Except String Unit :=
  if a = b then .ok () else .error "Arrays are not equal"

/-- Source `assert_arrays_equal(arrays1, arrays2)`: iterate over
`zip(arrays1, arrays2)` calling `assert_array_equal` on each pair; the
loop stops at the shorter sequence and raises at the first failing pair. -/
def assert_arrays_equal : List (List Int) → List (List Int) → Except String Unit
  | a :: as_, b :: bs =>
    match assert_array_equal a b with
    | .ok _ => assert_arrays_equal as_ bs
    | .error e => .error e
  | _, _ => .ok ()

/-- Process-wide stream state of the Python runtime as `captured_output`
sees it: `sys.stdout` and `sys.stderr` are identities (ids) of text
streams, `next` is the next unused stream id (fresh `StringIO` objects get
ids `next`, `next + 1`), and `buf` associates each stream id with the text
written to it so far (the pre-scope "real" destinations are streams too,
so writes reaching them are observable). -/
structure Sys where
  stdout : Nat
  stderr : Nat
  next : Nat
  buf : List (Nat × String)
deriving DecidableEq

/-- Text accumulated so far in the stream with id `i` (empty if the id
has never been written to). -/
def lookupStr : List (Nat × String) → Nat → String
  | [], _ => ""
  | p :: rest, i => if p.1 = i then p.2 else lookupStr rest i

/-- Append text `t` to the stream with id `i` in the association list. -/
def bufApp : List (Nat × String) → Nat → String → List (Nat × String)
  | [], i, t => [(i, t)]
  | p :: rest, i, t =>
    if p.1 = i then (p.1, p.2 ++ t) :: rest else p :: bufApp rest i t

/-- A write to the current `sys.stdout`. -/
def writeOut (t : String) (s : Sys) : Sys :=
  { s with buf := bufApp s.buf s.stdout t }

/-- A write to the current `sys.stderr`. -/
def writeErr (t : String) (s : Sys) : Sys :=
  { s with buf := bufApp s.buf s.stderr t }

/-- One text write performed by code running inside the capture scope. -/
inductive WriteAct where
  | toOut (t : String)
  | toErr (t : String)
deriving DecidableEq

/-- Run a sequence of writes against the current stream state. -/
def runWrites : List WriteAct → Sys → Sys
  | [], s => s
  | .toOut t :: ws, s => runWrites ws (writeOut t s)
  | .toErr t :: ws, s => runWrites ws (writeErr t s)

/-- Concatenation of the stdout writes of a sequence, in order. -/
def outConcat : List WriteAct → String
  | [] => ""
  | .toOut t :: ws => t ++ outConcat ws
  | .toErr _ :: ws => outConcat ws

/-- Concatenation of the stderr writes of a sequence, in order. -/
def errConcat : List WriteAct → String
  | [] => ""
  | .toOut _ :: ws => errConcat ws
  | .toErr t :: ws => t ++ errConcat ws

/-- State after the entry part of `captured_output`: two fresh empty
`StringIO` buffers are created (ids `next` and `next + 1`) and
`sys.stdout, sys.stderr` are redirected to them. -/
def enterState (s : Sys) : Sys :=
  { stdout := s.next, stderr := s.next + 1, next := s.next + 2,
    buf := s.buf ++ [(s.next, ""), (s.next + 1, "")] }

/-- Source `captured_output()`: save the old `sys.stdout`/`sys.stderr`,
redirect them to two fresh buffers, yield both buffers to the enclosed
`body` (which returns the final state and `some e` if it raised `e`, or
`none` if it returned normally), and in the `finally` block restore the
saved destinations before the outcome (normal or raised) propagates.
The result carries the outcome and the ids of the two yielded buffers. -/
def capturedOutput {E : Type} (body : Sys → Sys × Option E) (s : Sys) :
    (Sys × Option E) × Nat × Nat :=
  let r := body (enterState s)
  (({ r.1 with stdout := s.stdout, stderr := s.stderr }, r.2),
   (s.next, s.next + 1))

/-- Well-formedness of the stream state: every stream id in use is below
the fresh-id counter. -/
def Sys.WF (s : Sys) : Prop :=
  s.stdout < s.next ∧ s.stderr < s.next ∧ ∀ p ∈ s.buf, p.1 < s.next

/-- Version identifiers as parsed by `LooseVersion` on purely numeric
dotted versions: the list of numeric components.  `verLe` is Python's
list comparison (lexicographic, a strict prefix is smaller). -/
def verLe : List Nat → List Nat → Bool
  | [], _ => true
  | _ :: _, [] => false
  | a :: as_, b :: bs =>
    if a < b then true else if b < a then false else verLe as_ bs

/-- The process-wide global configuration touched by `setup_test`:
numpy's `legacy` print option and the warnings filter list. -/
structure GlobalConfig where
  printLegacy : Option String
  warnFilters : List String
deriving DecidableEq

/-- Effect of `np.set_printoptions(legacy=v)` on the global config. -/
def set_printoptions (v : String) (c : GlobalConfig) : GlobalConfig :=
  { c with printLegacy := some v }

/-- Effect of `warnings.simplefilter(action)`: reset the filter list to
the single given action. -/
def simplefilter (action : String) (c : GlobalConfig) : GlobalConfig :=
  { c with warnFilters := [action] }

/-- Source `setup_test()`, as a function of the installed numpy and scipy
versions and the current global configuration: if numpy >= 1.14, set the
legacy print mode to "1.13"; if numpy >= 1.15 and scipy <= 1.1.0, reset
the warnings filter to "default".  The Python body has no raise path, so
the model is a total function on configurations. -/
def setup_test (npVersion scipyVersion : List Nat) (c : GlobalConfig) :
    GlobalConfig :=
  let c1 := if verLe [1, 14] npVersion then set_printoptions "1.13" c else c
  if verLe [1, 15] npVersion && verLe scipyVersion [1, 1, 0] then
    simplefilter "default" c1
  else c1

/-- A template fragment with no brace characters, hence no substitution
slots. -/
def Braceless (cs : List Char) : Prop := ∀ c ∈ cs, c ≠ '\x7b' ∧ c ≠ '\x7d'

instance (cs : List Char) : Decidable (Braceless cs) := by
  unfold Braceless; infer_instance

instance (s : Sys) : Decidable s.WF := by
  unfold Sys.WF; infer_instance

/-- The template text of the first positional substitution slot. -/
def slot0 : List Char := ['\x7b', '0', '\x7d']

/-- The template text of the second positional substitution slot. -/
def slot1 : List Char := ['\x7b', '1', '\x7d']

/-- The capture scope run over a body that performs a fixed write
sequence and returns normally. -/
def captureRun (ws : List WriteAct) (s : Sys) :
    (Sys × Option Unit) × Nat × Nat :=
  capturedOutput (fun t => (runWrites ws t, none)) s

end Fury

namespace Fury

theorem str_mk_append (l m : List Char) :
    String.mk l ++ String.mk m = String.mk (l ++ m) := rfl

theorem pyFormat2_nil (a0 a1 : String) (auto : Nat) :
    pyFormat2 a0 a1 auto [] = "" := rfl

theorem pyFormat2_cons_ne (a0 a1 : String) (auto : Nat) (c : Char)
    (rest : List Char) (hc : c ≠ '\x7b') :
    pyFormat2 a0 a1 auto (c :: rest)
      = String.singleton c ++ pyFormat2 a0 a1 auto rest := by
  rw [pyFormat2.eq_def]
  simp only []
  rw [if_neg hc]

theorem pyFormat2_slot0_cons (a0 a1 : String) (auto : Nat)
    (rest : List Char) :
    pyFormat2 a0 a1 auto ('\x7b' :: '0' :: '\x7d' :: rest)
      = a0 ++ pyFormat2 a0 a1 auto rest := rfl

theorem pyFormat2_slot1_cons (a0 a1 : String) (auto : Nat)
    (rest : List Char) :
    pyFormat2 a0 a1 auto ('\x7b' :: '1' :: '\x7d' :: rest)
      = a1 ++ pyFormat2 a0 a1 auto rest := rfl

theorem pyFormat2_braceless_append (a0 a1 : String) (auto : Nat)
    (cs rest : List Char) (h : Braceless cs) :
    pyFormat2 a0 a1 auto (cs ++ rest)
      = String.mk cs ++ pyFormat2 a0 a1 auto rest := by
  induction cs with
  | nil => rw [List.nil_append]; exact (String.empty_append _).symm
  | cons c cs ih =>
    have hc : c ≠ '\x7b' := (h c (List.mem_cons_self c cs)).1
    have h' : Braceless cs := fun d hd => h d (List.mem_cons_of_mem c hd)
    rw [List.cons_append, pyFormat2_cons_ne _ _ _ _ _ hc, ih h',
      ← String.append_assoc]
    rfl

theorem pyFormat2_braceless (a0 a1 : String) (auto : Nat) (cs : List Char)
    (h : Braceless cs) :
    pyFormat2 a0 a1 auto cs = String.mk cs := by
  have := pyFormat2_braceless_append a0 a1 auto cs [] h
  rw [List.append_nil] at this
  rw [this, pyFormat2_nil, String.append_empty]

theorem pyFormat_braceless (msg a0 a1 : String) (h : Braceless msg.data) :
    pyFormat msg a0 a1 = msg := by
  unfold pyFormat
  have := pyFormat2_braceless_append a0 a1 0 msg.data [] h
  rw [List.append_nil] at this
  rw [this, pyFormat2_nil, String.append_empty]

/-- C1: `assert_operator` raises an assertion failure iff `op(value1,
value2)` is false, and returns normally (with no other outcome) iff it is
true. -/
theorem assert_operator_fails_iff_op_false (op : PyVal → PyVal → Bool)
    (v1 v2 : PyVal) (msg : String) :
    ((∃ e, assert_operator v1 v2 msg op = .error e) ↔ op v1 v2 = false)
    ∧ (assert_operator v1 v2 msg op = .ok () ↔ op v1 v2 = true) := by
  unfold assert_operator
  cases h : op v1 v2 <;> simp [h]

/-- C2: when `assert_operator` fails on a template whose two positional
slots appear (in order) between braceless fragments, the raised message
is the template with the FIRST slot replaced by the string form of
`value2` and the SECOND slot by the string form of `value1` (the swapped
order the source hard-codes in `msg.format(str(value2), str(value1))`). -/
theorem assert_operator_message_swapped (pre mid post : List Char)
    (v1 v2 : PyVal) (op : PyVal → PyVal → Bool)
    (hpre : Braceless pre) (hmid : Braceless mid) (hpost : Braceless post)
    (hop : op v1 v2 = false) :
    assert_operator v1 v2
        (String.mk (pre ++ slot0 ++ mid ++ slot1 ++ post)) op
      = .error (String.mk pre ++ pyStr v2 ++ String.mk mid ++ pyStr v1
          ++ String.mk post) := by
  unfold assert_operator
  rw [hop]
  simp only [Bool.not_false, if_pos]
  congr 1
  show pyFormat2 (pyStr v2) (pyStr v1) 0
      (pre ++ slot0 ++ mid ++ slot1 ++ post) = _
  rw [List.append_assoc, List.append_assoc, List.append_assoc,
    pyFormat2_braceless_append _ _ _ _ _ hpre]
  show String.mk pre ++ pyFormat2 _ _ _
      ('\x7b' :: '0' :: '\x7d' :: (mid ++ (slot1 ++ post))) = _
  rw [pyFormat2_slot0_cons, pyFormat2_braceless_append _ _ _ _ _ hmid]
  show _ ++ (_ ++ (_ ++ pyFormat2 _ _ _
      ('\x7b' :: '1' :: '\x7d' :: post))) = _
  rw [pyFormat2_slot1_cons, pyFormat2_braceless _ _ _ post hpost]
  simp only [String.append_assoc]

theorem assert_operator_message_swapped_witness :
    (Braceless [] ∧ Braceless " >= ".data ∧ pyGt (.int 3) (.int 5) = false)
    ∧ assert_operator (.int 3) (.int 5)
        (String.mk (([] : List Char) ++ slot0 ++ " >= ".data ++ slot1
          ++ ([] : List Char))) pyGt
      = .error (String.mk [] ++ pyStr (.int 5) ++ String.mk " >= ".data
          ++ pyStr (.int 3) ++ String.mk []) :=
  ⟨⟨by decide, by decide, by decide⟩,
    assert_operator_message_swapped [] " >= ".data [] (.int 3) (.int 5)
      pyGt (by decide) (by decide) (by decide) (by decide)⟩

/-- C5: the named bindings behave as the spec's examples state:
`assert_greater(5,3)` succeeds; `assert_greater(3,5)` fails;
`assert_true(False)` fails with message "False is not true";
`assert_false(True)` fails with message "True is not false";
`assert_not_equal(1,1)` fails. -/
theorem named_bindings_examples :
    assert_greater (.int 5) (.int 3) = .ok ()
    ∧ (∃ e, assert_greater (.int 3) (.int 5) = .error e)
    ∧ assert_true (.bool false) = .error "False is not true"
    ∧ assert_false (.bool true) = .error "True is not false"
    ∧ (∃ e, assert_not_equal (.int 1) (.int 1) = .error e) :=
  ⟨rfl, ⟨"5 > 3", rfl⟩, rfl, rfl, ⟨"", rfl⟩⟩

/-- C9: on equal values, `assert_not_equal` (whose message template stays
at the default empty string) raises with exactly the empty message. -/
theorem assert_not_equal_empty_message (v1 v2 : PyVal)
    (h : pyEq v1 v2 = true) :
    assert_not_equal v1 v2 = .error "" := by
  unfold assert_not_equal assert_operator pyNe
  rw [h]
  rfl

theorem assert_not_equal_empty_message_witness :
    pyEq (.int 1) (.int 1) = true
    ∧ assert_not_equal (.int 1) (.int 1) = .error "" :=
  ⟨by decide, assert_not_equal_empty_message (.int 1) (.int 1) (by decide)⟩

/-- C10: the default messages of `assert_true`/`assert_false` are
constant strings with no substitution slots, so every failing input
yields "False is not true" (resp. "True is not false") regardless of the
value; in particular `assert_true(0)` fails with "False is not true"
because the check is Python equality against the fixed boolean True. -/
theorem assert_true_false_constant_messages (v : PyVal) :
    (pyEq v (.bool true) = false →
      assert_true v = .error "False is not true")
    ∧ (pyEq v (.bool false) = false →
      assert_false v = .error "True is not false")
    ∧ assert_true (.int 0) = .error "False is not true" := by
  refine ⟨fun h => ?_, fun h => ?_, rfl⟩
  · unfold assert_true assert_operator
    rw [h]
    exact congrArg Except.error
      (pyFormat_braceless "False is not true" _ _ (by decide))
  · unfold assert_false assert_operator
    rw [h]
    exact congrArg Except.error
      (pyFormat_braceless "True is not false" _ _ (by decide))

theorem assert_true_false_constant_messages_witness :
    (pyEq (.int 0) (.bool true) = false
      ∧ assert_true (.int 0) = .error "False is not true")
    ∧ (pyEq (.int 7) (.bool false) = false
      ∧ assert_false (.int 7) = .error "True is not false") :=
  ⟨⟨by decide, (assert_true_false_constant_messages (.int 0)).1 (by decide)⟩,
   ⟨by decide, (assert_true_false_constant_messages (.int 7)).2.1 (by decide)⟩⟩

end Fury

namespace Fury

theorem lookupStr_eq_empty {l : List (Nat × String)} {i : Nat}
    (h : ∀ p ∈ l, p.1 ≠ i) : lookupStr l i = "" := by
  induction l with
  | nil => rfl
  | cons p rest ih =>
    show (if p.1 = i then p.2 else lookupStr rest i) = ""
    rw [if_neg (h p (List.mem_cons_self p rest))]
    exact ih fun q hq => h q (List.mem_cons_of_mem p hq)

theorem lookupStr_bufApp_self (l : List (Nat × String)) (i : Nat)
    (t : String) : lookupStr (bufApp l i t) i = lookupStr l i ++ t := by
  induction l with
  | nil =>
    show (if i = i then t else lookupStr [] i) = "" ++ t
    rw [if_pos rfl, String.empty_append]
  | cons p rest ih =>
    by_cases hp : p.1 = i
    · show lookupStr (if p.1 = i then (p.1, p.2 ++ t) :: rest
          else p :: bufApp rest i t) i = _
      rw [if_pos hp]
      show (if p.1 = i then p.2 ++ t else lookupStr rest i)
          = (if p.1 = i then p.2 else lookupStr rest i) ++ t
      rw [if_pos hp, if_pos hp]
    · show lookupStr (if p.1 = i then (p.1, p.2 ++ t) :: rest
          else p :: bufApp rest i t) i = _
      rw [if_neg hp]
      show (if p.1 = i then p.2 else lookupStr (bufApp rest i t) i)
          = (if p.1 = i then p.2 else lookupStr rest i) ++ t
      rw [if_neg hp, if_neg hp]
      exact ih

theorem lookupStr_bufApp_ne (l : List (Nat × String)) (i j : Nat)
    (t : String) (h : j ≠ i) :
    lookupStr (bufApp l i t) j = lookupStr l j := by
  induction l with
  | nil =>
    show (if i = j then t else lookupStr [] j) = ""
    rw [if_neg fun hij => h hij.symm]
    rfl
  | cons p rest ih =>
    by_cases hp : p.1 = i
    · have hpj : p.1 ≠ j := fun e => h (e.symm.trans hp)
      show lookupStr (if p.1 = i then (p.1, p.2 ++ t) :: rest
          else p :: bufApp rest i t) j = _
      rw [if_pos hp]
      show (if p.1 = j then p.2 ++ t else lookupStr rest j)
          = (if p.1 = j then p.2 else lookupStr rest j)
      rw [if_neg hpj, if_neg hpj]
    · show lookupStr (if p.1 = i then (p.1, p.2 ++ t) :: rest
          else p :: bufApp rest i t) j = _
      rw [if_neg hp]
      show (if p.1 = j then p.2 else lookupStr (bufApp rest i t) j)
          = (if p.1 = j then p.2 else lookupStr rest j)
      by_cases hpj : p.1 = j
      · rw [if_pos hpj, if_pos hpj]
      · rw [if_neg hpj, if_neg hpj]
        exact ih

theorem lookupStr_append_of_fresh_right (l m : List (Nat × String))
    (i : Nat) (h : ∀ p ∈ m, p.1 ≠ i) :
    lookupStr (l ++ m) i = lookupStr l i := by
  induction l with
  | nil => exact lookupStr_eq_empty h
  | cons p rest ih =>
    rw [List.cons_append]
    show (if p.1 = i then p.2 else lookupStr (rest ++ m) i)
        = (if p.1 = i then p.2 else lookupStr rest i)
    by_cases hp : p.1 = i
    · rw [if_pos hp, if_pos hp]
    · rw [if_neg hp, if_neg hp]
      exact ih

theorem lookupStr_append_of_fresh_left (l m : List (Nat × String))
    (i : Nat) (h : ∀ p ∈ l, p.1 ≠ i) :
    lookupStr (l ++ m) i = lookupStr m i := by
  induction l with
  | nil => rfl
  | cons p rest ih =>
    rw [List.cons_append]
    show (if p.1 = i then p.2 else lookupStr (rest ++ m) i) = lookupStr m i
    rw [if_neg (h p (List.mem_cons_self p rest))]
    exact ih fun q hq => h q (List.mem_cons_of_mem p hq)

theorem runWrites_fields (ws : List WriteAct) (s : Sys) :
    (runWrites ws s).stdout = s.stdout
    ∧ (runWrites ws s).stderr = s.stderr
    ∧ (runWrites ws s).next = s.next := by
  induction ws generalizing s with
  | nil => exact ⟨rfl, rfl, rfl⟩
  | cons w ws ih =>
    cases w with
    | toOut t => exact ih (writeOut t s)
    | toErr t => exact ih (writeErr t s)

theorem runWrites_content (ws : List WriteAct) (s : Sys)
    (hne : s.stdout ≠ s.stderr) :
    lookupStr (runWrites ws s).buf s.stdout
        = lookupStr s.buf s.stdout ++ outConcat ws
    ∧ lookupStr (runWrites ws s).buf s.stderr
        = lookupStr s.buf s.stderr ++ errConcat ws
    ∧ ∀ i, i ≠ s.stdout → i ≠ s.stderr →
        lookupStr (runWrites ws s).buf i = lookupStr s.buf i := by
  induction ws generalizing s with
  | nil =>
    refine ⟨?_, ?_, fun i _ _ => rfl⟩
    · show lookupStr s.buf s.stdout = lookupStr s.buf s.stdout ++ ""
      rw [String.append_empty]
    · show lookupStr s.buf s.stderr = lookupStr s.buf s.stderr ++ ""
      rw [String.append_empty]
  | cons w ws ih =>
    cases w with
    | toOut t =>
      have hih := ih (writeOut t s) hne
      have ih1 : lookupStr (runWrites ws (writeOut t s)).buf s.stdout
          = lookupStr (bufApp s.buf s.stdout t) s.stdout ++ outConcat ws :=
        hih.1
      have ih2 : lookupStr (runWrites ws (writeOut t s)).buf s.stderr
          = lookupStr (bufApp s.buf s.stdout t) s.stderr ++ errConcat ws :=
        hih.2.1
      have ih3 : ∀ i, i ≠ s.stdout → i ≠ s.stderr →
          lookupStr (runWrites ws (writeOut t s)).buf i
            = lookupStr (bufApp s.buf s.stdout t) i := hih.2.2
      refine ⟨?_, ?_, fun i hi1 hi2 => ?_⟩
      · show lookupStr (runWrites ws (writeOut t s)).buf s.stdout
            = lookupStr s.buf s.stdout ++ (t ++ outConcat ws)
        rw [ih1, lookupStr_bufApp_self, String.append_assoc]
      · show lookupStr (runWrites ws (writeOut t s)).buf s.stderr
            = lookupStr s.buf s.stderr ++ errConcat ws
        rw [ih2, lookupStr_bufApp_ne _ _ _ _ fun e => hne e.symm]
      · show lookupStr (runWrites ws (writeOut t s)).buf i = lookupStr s.buf i
        rw [ih3 i hi1 hi2, lookupStr_bufApp_ne _ _ _ _ hi1]
    | toErr t =>
      have hih := ih (writeErr t s) hne
      have ih1 : lookupStr (runWrites ws (writeErr t s)).buf s.stdout
          = lookupStr (bufApp s.buf s.stderr t) s.stdout ++ outConcat ws :=
        hih.1
      have ih2 : lookupStr (runWrites ws (writeErr t s)).buf s.stderr
          = lookupStr (bufApp s.buf s.stderr t) s.stderr ++ errConcat ws :=
        hih.2.1
      have ih3 : ∀ i, i ≠ s.stdout → i ≠ s.stderr →
          lookupStr (runWrites ws (writeErr t s)).buf i
            = lookupStr (bufApp s.buf s.stderr t) i := hih.2.2
      refine ⟨?_, ?_, fun i hi1 hi2 => ?_⟩
      · show lookupStr (runWrites ws (writeErr t s)).buf s.stdout
            = lookupStr s.buf s.stdout ++ outConcat ws
        rw [ih1, lookupStr_bufApp_ne _ _ _ _ hne]
      · show lookupStr (runWrites ws (writeErr t s)).buf s.stderr
            = lookupStr s.buf s.stderr ++ (t ++ errConcat ws)
        rw [ih2, lookupStr_bufApp_self, String.append_assoc]
      · show lookupStr (runWrites ws (writeErr t s)).buf i = lookupStr s.buf i
        rw [ih3 i hi1 hi2, lookupStr_bufApp_ne _ _ _ _ hi2]

/-- C3: the capture scope restores the pre-scope stdout/stderr identities
on every exit (normal or raising), and the enclosed code's outcome —
normal return or the original raised error — propagates unchanged. -/
theorem capturedOutput_restores_and_propagates {E : Type}
    (body : Sys → Sys × Option E) (s : Sys) :
    (capturedOutput body s).1.1.stdout = s.stdout
    ∧ (capturedOutput body s).1.1.stderr = s.stderr
    ∧ (capturedOutput body s).1.2 = (body (enterState s)).2 :=
  ⟨rfl, rfl, rfl⟩

end Fury

namespace Fury

/-- C4: running any write sequence inside the capture scope leaves the
first yielded buffer holding exactly the concatenation of the stdout
writes and the second exactly the concatenation of the stderr writes,
while the pre-scope destinations' contents are unchanged — nothing
reaches them while the scope is active. -/
theorem capturedOutput_captures (ws : List WriteAct) (s : Sys)
    (h : s.WF) :
    lookupStr (captureRun ws s).1.1.buf (captureRun ws s).2.1
        = outConcat ws
    ∧ lookupStr (captureRun ws s).1.1.buf (captureRun ws s).2.2
        = errConcat ws
    ∧ lookupStr (captureRun ws s).1.1.buf s.stdout
        = lookupStr s.buf s.stdout
    ∧ lookupStr (captureRun ws s).1.1.buf s.stderr
        = lookupStr s.buf s.stderr := by
  obtain ⟨h1, h2, h3⟩ := h
  have hfresh0 : ∀ p ∈ s.buf, p.1 ≠ s.next :=
    fun p hp => Nat.ne_of_lt (h3 p hp)
  have hfresh1 : ∀ p ∈ s.buf, p.1 ≠ s.next + 1 :=
    fun p hp => by have := h3 p hp; omega
  have hne : (enterState s).stdout ≠ (enterState s).stderr :=
    show s.next ≠ s.next + 1 by omega
  have R := runWrites_content ws (enterState s) hne
  have R1 : lookupStr (runWrites ws (enterState s)).buf s.next
      = lookupStr (s.buf ++ [(s.next, ""), (s.next + 1, "")]) s.next
        ++ outConcat ws := R.1
  have R2 : lookupStr (runWrites ws (enterState s)).buf (s.next + 1)
      = lookupStr (s.buf ++ [(s.next, ""), (s.next + 1, "")]) (s.next + 1)
        ++ errConcat ws := R.2.1
  have R3 : ∀ i, i ≠ s.next → i ≠ s.next + 1 →
      lookupStr (runWrites ws (enterState s)).buf i
        = lookupStr (s.buf ++ [(s.next, ""), (s.next + 1, "")]) i := R.2.2
  have e1 : lookupStr (s.buf ++ [(s.next, ""), (s.next + 1, "")]) s.next
      = "" := by
    rw [lookupStr_append_of_fresh_left _ _ _ hfresh0]
    show (if s.next = s.next then "" else _) = ""
    rw [if_pos rfl]
  have e2 : lookupStr (s.buf ++ [(s.next, ""), (s.next + 1, "")])
      (s.next + 1) = "" := by
    rw [lookupStr_append_of_fresh_left _ _ _ hfresh1]
    show (if s.next = s.next + 1 then ""
        else if s.next + 1 = s.next + 1 then "" else _) = ""
    rw [if_neg (by omega), if_pos rfl]
  have hpair : ∀ j, j < s.next →
      ∀ p ∈ [(s.next, ""), (s.next + 1, "")], p.1 ≠ j := by
    intro j hj p hp
    have : p = (s.next, "") ∨ p = (s.next + 1, "") := by simpa using hp
    rcases this with rfl | rfl <;> simp <;> omega
  have e3 : lookupStr (s.buf ++ [(s.next, ""), (s.next + 1, "")]) s.stdout
      = lookupStr s.buf s.stdout :=
    lookupStr_append_of_fresh_right _ _ _ (hpair s.stdout h1)
  have e4 : lookupStr (s.buf ++ [(s.next, ""), (s.next + 1, "")]) s.stderr
      = lookupStr s.buf s.stderr :=
    lookupStr_append_of_fresh_right _ _ _ (hpair s.stderr h2)
  refine ⟨?_, ?_, ?_, ?_⟩
  · show lookupStr (runWrites ws (enterState s)).buf s.next = outConcat ws
    rw [R1, e1, String.empty_append]
  · show lookupStr (runWrites ws (enterState s)).buf (s.next + 1)
        = errConcat ws
    rw [R2, e2, String.empty_append]
  · show lookupStr (runWrites ws (enterState s)).buf s.stdout
        = lookupStr s.buf s.stdout
    rw [R3 s.stdout (Nat.ne_of_lt h1) (by omega), e3]
  · show lookupStr (runWrites ws (enterState s)).buf s.stderr
        = lookupStr s.buf s.stderr
    rw [R3 s.stderr (Nat.ne_of_lt h2) (by omega), e4]

theorem capturedOutput_captures_witness :
    (Sys.mk 0 1 2 []).WF
    ∧ (lookupStr
          (captureRun [.toOut "a", .toErr "x", .toOut "b"]
            (Sys.mk 0 1 2 [])).1.1.buf
          (captureRun [.toOut "a", .toErr "x", .toOut "b"]
            (Sys.mk 0 1 2 [])).2.1
        = outConcat [.toOut "a", .toErr "x", .toOut "b"]
      ∧ lookupStr
          (captureRun [.toOut "a", .toErr "x", .toOut "b"]
            (Sys.mk 0 1 2 [])).1.1.buf
          (captureRun [.toOut "a", .toErr "x", .toOut "b"]
            (Sys.mk 0 1 2 [])).2.2
        = errConcat [.toOut "a", .toErr "x", .toOut "b"]
      ∧ lookupStr
          (captureRun [.toOut "a", .toErr "x", .toOut "b"]
            (Sys.mk 0 1 2 [])).1.1.buf (Sys.mk 0 1 2 []).stdout
        = lookupStr (Sys.mk 0 1 2 []).buf (Sys.mk 0 1 2 []).stdout
      ∧ lookupStr
          (captureRun [.toOut "a", .toErr "x", .toOut "b"]
            (Sys.mk 0 1 2 [])).1.1.buf (Sys.mk 0 1 2 []).stderr
        = lookupStr (Sys.mk 0 1 2 []).buf (Sys.mk 0 1 2 []).stderr) :=
  ⟨by decide,
    capturedOutput_captures [.toOut "a", .toErr "x", .toOut "b"]
      (Sys.mk 0 1 2 []) (by decide)⟩

end Fury

namespace Fury

theorem assert_arrays_equal_cons (x y : List Int) (xs ys : List (List Int)) :
    assert_arrays_equal (x :: xs) (y :: ys)
      = if x = y then assert_arrays_equal xs ys
        else .error "Arrays are not equal" := by
  show (match assert_array_equal x y with
    | .ok _ => assert_arrays_equal xs ys
    | .error e => (.error e : Except String Unit)) = _
  unfold assert_array_equal
  by_cases h : x = y
  · rw [if_pos h, if_pos h]
  · rw [if_neg h, if_neg h]

/-- C6: `assert_arrays_equal` pairs elements positionally and checks
exactly the zipped (`min`-length) prefix — its result only depends on the
zip of the two sequences, so elements beyond the shorter sequence are
silently ignored; it succeeds exactly when every checked pair is equal
and fails exactly when some checked pair differs. -/
theorem assert_arrays_equal_spec (xs ys : List (List Int)) :
    assert_arrays_equal xs ys
      = assert_arrays_equal ((xs.zip ys).map Prod.fst)
          ((xs.zip ys).map Prod.snd)
    ∧ (assert_arrays_equal xs ys = .ok () ↔ ∀ p ∈ xs.zip ys, p.1 = p.2)
    ∧ ((∃ e, assert_arrays_equal xs ys = .error e)
        ↔ ∃ p ∈ xs.zip ys, p.1 ≠ p.2) := by
  induction xs generalizing ys with
  | nil =>
    refine ⟨rfl, ?_, ?_⟩ <;> simp [show assert_arrays_equal [] ys = .ok ()
      from rfl]
  | cons x xs ih =>
    cases ys with
    | nil =>
      refine ⟨rfl, ?_, ?_⟩ <;>
        simp [show assert_arrays_equal (x :: xs) [] = .ok () from rfl]
    | cons y ys =>
      obtain ⟨ih1, ih2, ih3⟩ := ih ys
      simp only [List.zip_cons_cons, List.map_cons, assert_arrays_equal_cons]
      by_cases hxy : x = y
      · simp only [if_pos hxy]
        refine ⟨ih1, ?_, ?_⟩
        · rw [ih2]
          simp [List.forall_mem_cons, hxy]
        · rw [ih3]
          simp [List.mem_cons, hxy]
      · simp only [if_neg hxy]
        refine ⟨?_, ?_, ?_⟩
        · first
          | rfl
          | trivial
        · simp [List.forall_mem_cons, hxy]
        · exact ⟨fun _ => ⟨(x, y), List.mem_cons_self _ _, hxy⟩,
            fun _ => ⟨"Arrays are not equal", rfl⟩⟩

end Fury

namespace Fury

/-- C7: `setup_test` sets the legacy print mode (to "1.13") exactly when
numpy >= 1.14, resets the warnings filter to the "default" action exactly
when numpy >= 1.15 and scipy <= 1.1.0, and leaves each global setting
untouched otherwise; being a total function of the versions and the
configuration, it has no failure path. -/
theorem setup_test_spec (np sp : List Nat) (c : GlobalConfig) :
    (setup_test np sp c).printLegacy
      = (if verLe [1, 14] np then some "1.13" else c.printLegacy)
    ∧ (setup_test np sp c).warnFilters
      = (if verLe [1, 15] np && verLe sp [1, 1, 0] then ["default"]
        else c.warnFilters) := by
  unfold setup_test set_printoptions simplefilter
  cases h14 : verLe [1, 14] np <;>
    cases h15 : verLe [1, 15] np && verLe sp [1, 1, 0] <;>
    simp [h14, h15]

/-- C8: `setup_test` is idempotent — for any fixed numpy and scipy
versions, running it twice leaves the global configuration exactly as
running it once. -/
theorem setup_test_idempotent (np sp : List Nat) (c : GlobalConfig) :
    setup_test np sp (setup_test np sp c) = setup_test np sp c := by
  unfold setup_test set_printoptions simplefilter
  cases h14 : verLe [1, 14] np <;>
    cases h15 : verLe [1, 15] np && verLe sp [1, 1, 0] <;>
    simp [h14, h15]

end Fury
